import Mathlib

/-!
Shallow embedding of the deterministic simulation kernel of the sanguo-190
strategy game (TypeScript sources under src/), together with proofs of the
specification claims about it.

Conventions of the embedding:
* TypeScript numbers that only ever hold integers (gold, troops, attribute
  values, months, ...) are modelled as `Int`; `Math.floor(x / d)` on integers
  with a positive divisor `d` is `Int.fdiv x d`.
* Quantities that are genuinely fractional (probabilities, power scores,
  random draws in `[0,1)`) are modelled as `Rat`; `Math.floor` on those is
  `Int.floor`.
* `Record<string, T>` maps are modelled as functions `String → Option T`;
  a JavaScript in-place mutation of one entry becomes a functional update.
* Ambient `Math.random()` draws are policy-injectable in the source; they are
  explicit parameters here.
* Fallible lookups (`state.cities[id]` possibly `undefined`) are `Option`
  matches; code paths that would throw on a corrupted state graph (a missing
  escape-city record) are modelled as leaving the state unchanged.
-/

namespace Sanguo

/-! ### Domestic economy (src/systems/domestic.ts) -/

/-- Result record of `executeDevelopment` (domestic.ts `DomesticResult`). -/
structure DomesticResult where
  success : Bool
  goldSpent : Int
  valueIncrease : Int
  newValue : Int
  error : Option String
deriving DecidableEq, Repr

/-- Result record of `executeRecruitment` (domestic.ts `RecruitResult`). -/
structure RecruitResult where
  success : Bool
  goldSpent : Int
  populationSpent : Int
  soldiersGained : Int
  loyaltyDecrease : Int
  error : Option String
deriving DecidableEq, Repr

/-- domestic.ts `DEVELOPMENT_GOLD_COST`. -/
def DEVELOPMENT_GOLD_COST : Int := 100

/-- domestic.ts `RECRUITMENT_GOLD_PER_SOLDIER`. -/
def RECRUITMENT_GOLD_PER_SOLDIER : Int := 2

/-- domestic.ts `RECRUITMENT_POPULATION_PER_SOLDIER`. -/
def RECRUITMENT_POPULATION_PER_SOLDIER : Int := 1

/-- domestic.ts `RECRUITMENT_BASE_LOYALTY_DECREASE`. -/
def RECRUITMENT_BASE_LOYALTY_DECREASE : Int := 5

/-- city.ts `COMMERCE_MAX`. -/
def COMMERCE_MAX : Int := 999

/-- domestic.ts `calculateDevelopmentIncrease`: `Math.floor(executorPol / 5) + randomValue`.
The random fluctuation (1..5 in production) is an explicit parameter. -/
def calculateDevelopmentIncrease (executorPol randomValue : Int) : Int :=
  Int.fdiv executorPol 5 + randomValue

/-- domestic.ts `executeDevelopment`: spend 100 gold to raise a commerce or
agriculture value, clamped at `maxValue`; fails when gold is short. -/
def executeDevelopment (currentGold currentValue executorPol : Int)
    (maxValue : Int := COMMERCE_MAX) (randomValue : Int := 3) : DomesticResult :=
  if currentGold < DEVELOPMENT_GOLD_COST then
    { success := false, goldSpent := 0, valueIncrease := 0, newValue := currentValue,
      error := some "金钱不足" }
  else
    let increase := calculateDevelopmentIncrease executorPol randomValue
    let newValue := min (currentValue + increase) maxValue
    { success := true, goldSpent := DEVELOPMENT_GOLD_COST,
      valueIncrease := newValue - currentValue, newValue := newValue, error := none }

/-- domestic.ts `calculateRecruitmentSoldiers`: `lead * 10 + cha * 5`. -/
def calculateRecruitmentSoldiers (lead cha : Int) : Int :=
  lead * 10 + cha * 5

/-- domestic.ts `calculateLoyaltyDecrease`: `max(1, 5 - Math.floor(cha / 20))`. -/
def calculateLoyaltyDecrease (cha : Int) : Int :=
  max 1 (RECRUITMENT_BASE_LOYALTY_DECREASE - Int.fdiv cha 20)

/-- city.ts `CityResources`. -/
structure CityResources where
  population : Int
  gold : Int
  grain : Int
  commerce : Int
  agriculture : Int
  defense : Int
  loyalty : Int
deriving DecidableEq, Repr

/-- domestic.ts `executeRecruitment`: gold check first, then population check,
then success with the loyalty penalty. -/
def executeRecruitment (cityResources : CityResources) (executorLead executorCha : Int) :
    RecruitResult :=
  let soldiersGained := calculateRecruitmentSoldiers executorLead executorCha
  let goldNeeded := soldiersGained * RECRUITMENT_GOLD_PER_SOLDIER
  let populationNeeded := soldiersGained * RECRUITMENT_POPULATION_PER_SOLDIER
  if cityResources.gold < goldNeeded then
    { success := false, goldSpent := 0, populationSpent := 0, soldiersGained := 0,
      loyaltyDecrease := 0, error := some "金钱不足" }
  else if cityResources.population < populationNeeded then
    { success := false, goldSpent := 0, populationSpent := 0, soldiersGained := 0,
      loyaltyDecrease := 0, error := some "人口不足" }
  else
    { success := true, goldSpent := goldNeeded, populationSpent := populationNeeded,
      soldiersGained := soldiersGained, loyaltyDecrease := calculateLoyaltyDecrease executorCha,
      error := none }

/-! ### Turn system (src/systems/turnSystem.ts) and gameState constants -/

/-- gameState.ts `INITIAL_ACTION_POINTS`. -/
def INITIAL_ACTION_POINTS : Int := 3

/-- gameState.ts `AP_COST_DOMESTIC`. -/
def AP_COST_DOMESTIC : Int := 1

/-- gameState.ts `AP_COST_MOVEMENT`. -/
def AP_COST_MOVEMENT : Int := 1

/-- gameState.ts `AP_COST_CAMPAIGN`. -/
def AP_COST_CAMPAIGN : Int := 2

/-- turnSystem.ts `ActionType`. -/
inductive ActionType where
  | domestic
  | movement
  | campaign
deriving DecidableEq, Repr

/-- turnSystem.ts `getActionPointCost`. -/
def getActionPointCost : ActionType → Int
  | .domestic => AP_COST_DOMESTIC
  | .movement => AP_COST_MOVEMENT
  | .campaign => AP_COST_CAMPAIGN

/-- turnSystem.ts `APDeductionResult`. -/
structure APDeductionResult where
  success : Bool
  remainingAP : Int
  deducted : Int
  error : Option String
deriving DecidableEq, Repr

/-- Error text built by turnSystem.ts `deductActionPoints` on failure. -/
def apInsufficientMsg (cost current : Int) : String :=
  "行动力不足，需要 " ++ toString cost ++ " 点，当前 " ++ toString current ++ " 点"

/-- turnSystem.ts `deductActionPoints`: fails without mutation when the cost
exceeds the current action points. -/
def deductActionPoints (currentAP : Int) (actionType : ActionType) : APDeductionResult :=
  let cost := getActionPointCost actionType
  if currentAP < cost then
    { success := false, remainingAP := currentAP, deducted := 0,
      error := some (apInsufficientMsg cost currentAP) }
  else
    { success := true, remainingAP := currentAP - cost, deducted := cost, error := none }

/-- events.ts `GameTimestamp`. -/
structure GameTimestamp where
  year : Int
  month : Int
deriving DecidableEq, Repr

/-- turnSystem.ts `MonthAdvanceResult`. -/
structure MonthAdvanceResult where
  newDate : GameTimestamp
  yearChanged : Bool
  isJanuary : Bool
  isJuly : Bool
deriving DecidableEq, Repr

/-- turnSystem.ts `advanceMonth`: increment the month, wrapping 12 → 1 with a
year change, and report the January / July triggers of the new month. -/
def advanceMonth (current : GameTimestamp) : MonthAdvanceResult :=
  let wrapped : Bool := decide (current.month + 1 > 12)
  let newYear : Int := if wrapped then current.year + 1 else current.year
  let newMonth : Int := if wrapped then 1 else current.month + 1
  { newDate := { year := newYear, month := newMonth },
    yearChanged := wrapped,
    isJanuary := decide (newMonth = 1),
    isJuly := decide (newMonth = 7) }

/-- Loop body of turnSystem.ts `validateAPConsumption`: run the deductions in
order, keeping the pre-failure AP and breaking on the first failure. -/
def consumeAPLoop : Int → List ActionType → Int × Bool
  | currentAP, [] => (currentAP, true)
  | currentAP, action :: rest =>
    let r := deductActionPoints currentAP action
    if r.success then consumeAPLoop r.remainingAP rest else (currentAP, false)

/-- Result record of turnSystem.ts `validateAPConsumption`. -/
structure APValidationResult where
  finalAP : Int
  allValid : Bool
deriving DecidableEq, Repr

/-- turnSystem.ts `validateAPConsumption`: run the loop, then additionally
flag invalidity if the final AP is negative. -/
def validateAPConsumption (initialAP : Int) (actions : List ActionType) : APValidationResult :=
  let r := consumeAPLoop initialAP actions
  { finalAP := r.1, allValid := r.2 && !(decide (r.1 < 0)) }

/-- Spec-side description of the turnSystem.ts AP-sequence property: a
sequence is affordable from `ap` when every greedy deduction stays funded. -/
def apSeqAffordable : Int → List ActionType → Bool
  | _, [] => true
  | ap, action :: rest =>
    if ap < getActionPointCost action then false
    else apSeqAffordable (ap - getActionPointCost action) rest

/-! ### Battle system (src/systems/battle.ts) -/

/-- battle.ts `DUEL_TRIGGER_PROBABILITY`. -/
def DUEL_TRIGGER_PROBABILITY : Rat := 0.05

/-- battle.ts `INSTANT_KILL_PROBABILITY`. -/
def INSTANT_KILL_PROBABILITY : Rat := 0.01

/-- battle.ts `DUEL_WAR_DIFF_THRESHOLD`. -/
def DUEL_WAR_DIFF_THRESHOLD : Int := 10

/-- battle.ts `INSTANT_KILL_WAR_DIFF_THRESHOLD`. -/
def INSTANT_KILL_WAR_DIFF_THRESHOLD : Int := 20

/-- battle.ts `DuelResult`. -/
structure DuelResult where
  triggered : Bool
  instantKill : Bool
  winner : Option String
deriving DecidableEq, Repr

/-- battle.ts `calculateAttackPower`: `troops * (war*0.4 + lead*0.6) / 100`. -/
def calculateAttackPower (troops war lead : Int) : Rat :=
  (troops : Rat) * ((war : Rat) * 0.4 + (lead : Rat) * 0.6) / 100

/-- battle.ts `calculateDefensePower`:
`troops * (lead*0.8 + int*0.2) / 100 + cityDefense`. -/
def calculateDefensePower (troops lead int cityDefense : Int) : Rat :=
  (troops : Rat) * ((lead : Rat) * 0.8 + (int : Rat) * 0.2) / 100 + (cityDefense : Rat)

/-- battle.ts `checkDuel`: with war difference at most 10 the duel triggers
iff the injected draw is below 0.05. -/
def checkDuel (attackerWar defenderWar : Int) (randomValue : Rat) : Bool :=
  if |attackerWar - defenderWar| ≤ DUEL_WAR_DIFF_THRESHOLD then
    decide (randomValue < DUEL_TRIGGER_PROBABILITY)
  else false

/-- battle.ts `checkInstantKill`: with war difference above 20 the instant
kill triggers iff the injected draw is below 0.01. -/
def checkInstantKill (attackerWar defenderWar : Int) (randomValue : Rat) : Bool :=
  if |attackerWar - defenderWar| > INSTANT_KILL_WAR_DIFF_THRESHOLD then
    decide (randomValue < INSTANT_KILL_PROBABILITY)
  else false

/-- battle.ts `determineDuelWinner`: strictly higher war wins, ties are broken
by the injected draw (`< 0.5` picks the attacker). -/
def determineDuelWinner (attackerWar defenderWar : Int) (attackerId defenderId : String)
    (randomValue : Rat) : String :=
  if attackerWar > defenderWar then attackerId
  else if defenderWar > attackerWar then defenderId
  else if randomValue < 0.5 then attackerId else defenderId

/-- battle.ts `determineInstantKillVictim`: the combatant with the lower war
value is the victim. -/
def determineInstantKillVictim (attackerWar defenderWar : Int)
    (attackerId defenderId : String) : String :=
  if attackerWar > defenderWar then defenderId else attackerId

/-- battle.ts `executeDuelCheck`: the instant-kill check runs first, then the
ordinary duel check; otherwise nothing triggers. -/
def executeDuelCheck (attackerWar defenderWar : Int) (attackerId defenderId : String)
    (duelRandom instantKillRandom winnerRandom : Rat) : DuelResult :=
  if checkInstantKill attackerWar defenderWar instantKillRandom then
    let victim := determineInstantKillVictim attackerWar defenderWar attackerId defenderId
    let winner := if victim = attackerId then defenderId else attackerId
    { triggered := true, instantKill := true, winner := some winner }
  else if checkDuel attackerWar defenderWar duelRandom then
    { triggered := true, instantKill := false,
      winner := some (determineDuelWinner attackerWar defenderWar attackerId defenderId winnerRandom) }
  else
    { triggered := false, instantKill := false, winner := none }

/-! ### Data model (src/types) -/

/-- general.ts `GeneralAttributes` (five 0-100 attributes). -/
structure GeneralAttributes where
  lead : Int
  war : Int
  int : Int
  pol : Int
  cha : Int
deriving DecidableEq, Repr

/-- general.ts `General`. -/
structure General where
  id : String
  name : String
  faction : String
  attributes : GeneralAttributes
  age : Int
  isAlive : Bool
  currentCity : String
  troops : Int
deriving DecidableEq, Repr

/-- city.ts `CityPosition`. -/
structure CityPosition where
  x : Int
  y : Int
deriving DecidableEq, Repr

/-- city.ts `CityScale`. -/
inductive CityScale where
  | small
  | medium
  | large
deriving DecidableEq, Repr

/-- city.ts `City`. -/
structure City where
  id : String
  name : String
  faction : String
  position : CityPosition
  scale : CityScale
  resources : CityResources
  connectedCities : List String
  stationedGenerals : List String
  governor : Option String
deriving DecidableEq, Repr

/-- faction.ts `DiplomacyStatus`. -/
inductive DiplomacyStatus where
  | hostile
  | neutral
  | ally
deriving DecidableEq, Repr

/-- faction.ts `Faction`; the diplomacy record is a partial map. -/
structure Faction where
  id : String
  name : String
  lordId : String
  color : String
  cities : List String
  generals : List String
  diplomacy : String → Option DiplomacyStatus

/-- gameState.ts `GamePhase`. -/
inductive GamePhase where
  | player
  | calculation
  | narrative
deriving DecidableEq, Repr

/-- events.ts `GameEvent` type tag. -/
inductive EventType where
  | battle
  | domestic
  | disaster
  | general
deriving DecidableEq, Repr

/-- aiSystem.ts `AIStateUpdate` attack outcome / events.ts battle result. -/
inductive AttackResult where
  | win
  | lose
  | draw
deriving DecidableEq, Repr

/-- events.ts `BattleEventData`. -/
structure BattleEventData where
  attacker : String
  defender : String
  attackerGeneral : String
  defenderGeneral : String
  result : AttackResult
  attackerCasualties : Int
  defenderCasualties : Int
  cityCapture : Option String
deriving DecidableEq, Repr

/-- events.ts `DomesticEventData`. -/
structure DomesticEventData where
  city : String
  action : String
  executor : String
  value : Int
deriving DecidableEq, Repr

/-- Type-tagged payload of events.ts `GameEvent`. -/
inductive GameEventData where
  | battle (d : BattleEventData)
  | domestic (d : DomesticEventData)
deriving DecidableEq, Repr

/-- events.ts `GameEvent`; the narrative text is filled in externally. -/
structure GameEvent where
  id : String
  type : EventType
  timestamp : GameTimestamp
  data : GameEventData
  narrative : Option String
deriving DecidableEq, Repr

/-- gameState.ts `GameState`; the three `Record<string, _>` tables are
partial maps. -/
structure GameState where
  currentDate : GameTimestamp
  currentFaction : String
  actionPoints : Int
  phase : GamePhase
  factions : String → Option Faction
  cities : String → Option City
  generals : String → Option General
  selectedCity : Option String
  eventLog : List GameEvent

/-- Functional form of a JavaScript in-place update of one entry of the
`cities` table. -/
def GameState.updateCity (s : GameState) (cityId : String) (f : City → City) : GameState :=
  { s with cities := fun k => if k = cityId then (s.cities k).map f else s.cities k }

/-- Functional form of a JavaScript in-place update of one entry of the
`factions` table. -/
def GameState.updateFaction (s : GameState) (factionId : String) (f : Faction → Faction) :
    GameState :=
  { s with factions := fun k => if k = factionId then (s.factions k).map f else s.factions k }

/-- Functional form of a JavaScript in-place update of one entry of the
`generals` table. -/
def GameState.updateGeneral (s : GameState) (generalId : String) (f : General → General) :
    GameState :=
  { s with generals := fun k => if k = generalId then (s.generals k).map f else s.generals k }

/-! ### AI decision system (src/systems/aiSystem.ts) -/

/-- aiSystem.ts `AIAction`. -/
inductive AIAction where
  | recruit (cityId generalId : String)
  | develop (cityId generalId : String) (targetCommerce : Bool)
  | attack (fromCity toCity generalId : String)
deriving DecidableEq, Repr

/-- aiSystem.ts `ThreatInfo`. -/
structure ThreatInfo where
  factionId : String
  factionName : String
  cityId : String
  cityName : String
  troops : Int
  distance : Int
  threatScore : Rat
deriving DecidableEq, Repr

/-- aiSystem.ts `AttackTargetEvaluation`. -/
structure AttackTargetEvaluation where
  targetCityId : String
  targetCityName : String
  successProbability : Rat
  strategicValue : Rat
  score : Rat
deriving DecidableEq, Repr

/-- aiSystem.ts `AI_WEIGHTS.THREAT_TROOPS_WEIGHT`. -/
def THREAT_TROOPS_WEIGHT : Rat := 1.0

/-- aiSystem.ts `AI_WEIGHTS.THREAT_DISTANCE_WEIGHT`. -/
def THREAT_DISTANCE_WEIGHT : Rat := 2.0

/-- aiSystem.ts `AI_WEIGHTS.RECRUIT_PRIORITY_TROOPS_THRESHOLD`. -/
def RECRUIT_PRIORITY_TROOPS_THRESHOLD : Int := 10000

/-- aiSystem.ts `AI_WEIGHTS.MIN_ATTACK_SUCCESS_PROBABILITY`. -/
def MIN_ATTACK_SUCCESS_PROBABILITY : Rat := 0.6

/-- aiSystem.ts `AI_WEIGHTS.CITY_SCALE_SCORE`. -/
def CITY_SCALE_SCORE : CityScale → Int
  | .small => 1
  | .medium => 2
  | .large => 3

/-- aiSystem.ts `calculateCityTroops`: sum of troops of the living stationed
generals. -/
def calculateCityTroops (city : City) (generals : String → Option General) : Int :=
  city.stationedGenerals.foldl
    (fun total generalId =>
      match generals generalId with
      | some general => if general.isAlive then total + general.troops else total
      | none => total)
    0

/-- aiSystem.ts `getStrongestGeneral`: best living stationed general with
positive troops by `war*0.4 + lead*0.6`, strict improvement over a -1 start. -/
def getStrongestGeneral (city : City) (generals : String → Option General) : Option General :=
  (city.stationedGenerals.foldl
    (fun acc generalId =>
      match generals generalId with
      | some general =>
        if general.isAlive ∧ 0 < general.troops then
          let power := (general.attributes.war : Rat) * 0.4 + (general.attributes.lead : Rat) * 0.6
          if power > acc.2 then (some general, power) else acc
        else acc
      | none => acc)
    ((none : Option General), (-1 : Rat))).1

/-- aiSystem.ts `getBestPoliticsGeneral`: living stationed general with the
highest `pol`, strict improvement over a -1 start. -/
def getBestPoliticsGeneral (city : City) (generals : String → Option General) : Option General :=
  (city.stationedGenerals.foldl
    (fun acc generalId =>
      match generals generalId with
      | some general =>
        if general.isAlive then
          if general.attributes.pol > acc.2 then (some general, general.attributes.pol) else acc
        else acc
      | none => acc)
    ((none : Option General), (-1 : Int))).1

/-- Relation ordering threats by descending score (aiSystem.ts sorts with the
comparator `b.threatScore - a.threatScore`). -/
def threatGE (a b : ThreatInfo) : Prop := b.threatScore ≤ a.threatScore

instance : DecidableRel threatGE := fun a b =>
  inferInstanceAs (Decidable (b.threatScore ≤ a.threatScore))

instance : IsTotal ThreatInfo threatGE :=
  ⟨fun a b => le_total b.threatScore a.threatScore⟩

instance : IsTrans ThreatInfo threatGE :=
  ⟨fun _ _ _ h1 h2 => le_trans h2 h1⟩

/-- Per-neighbour body of aiSystem.ts `evaluateThreat`: skip missing records,
skip non-hostile or own-faction neighbours, skip empty garrisons, otherwise
build the threat entry. -/
def threatCandidate (myFaction : String) (s : GameState) (connectedCityId : String) :
    Option ThreatInfo :=
  match s.cities connectedCityId with
  | none => none
  | some connectedCity =>
    match s.factions connectedCity.faction, s.factions myFaction with
    | some connectedFaction, some myFactionData =>
      if myFactionData.diplomacy connectedCity.faction ≠ some .hostile
          ∧ connectedCity.faction ≠ myFaction then none
      else if connectedCity.faction = myFaction then none
      else
        let enemyTroops := calculateCityTroops connectedCity s.generals
        if enemyTroops ≤ 0 then none
        else some
          { factionId := connectedCity.faction
            factionName := connectedFaction.name
            cityId := connectedCityId
            cityName := connectedCity.name
            troops := enemyTroops
            distance := 1
            threatScore := (enemyTroops : Rat) * THREAT_TROOPS_WEIGHT / 1000
              + THREAT_DISTANCE_WEIGHT }
    | _, _ => none

/-- aiSystem.ts `evaluateThreat`: collect the qualifying direct neighbours and
sort them by descending threat score. -/
def evaluateThreat (cityId : String) (s : GameState) : List ThreatInfo :=
  match s.cities cityId with
  | none => []
  | some city =>
    (city.connectedCities.filterMap (threatCandidate city.faction s)).insertionSort threatGE

/-- aiSystem.ts `evaluateAttackTarget`: success probability from the clamped
power ratio, strategic value from scale and economy, composite score. -/
def evaluateAttackTarget (fromCity targetCity : City) (s : GameState) :
    AttackTargetEvaluation :=
  let myTroops := calculateCityTroops fromCity s.generals
  let myAttackPower : Rat :=
    match getStrongestGeneral fromCity s.generals with
    | some myGeneral => calculateAttackPower myTroops myGeneral.attributes.war myGeneral.attributes.lead
    | none => 0
  let enemyTroops := calculateCityTroops targetCity s.generals
  let enemyDefensePower : Rat :=
    match getStrongestGeneral targetCity s.generals with
    | some enemyGeneral =>
      calculateDefensePower enemyTroops enemyGeneral.attributes.lead enemyGeneral.attributes.int
        targetCity.resources.defense
    | none => (targetCity.resources.defense : Rat)
  let powerRatio : Rat := if enemyDefensePower > 0 then myAttackPower / enemyDefensePower else 10
  let successProbability := min 0.95 (max 0.05 (powerRatio / 2))
  let strategicValue : Rat :=
    (CITY_SCALE_SCORE targetCity.scale : Rat) * 10
      + (targetCity.resources.commerce : Rat) / 100
      + (targetCity.resources.agriculture : Rat) / 100
  { targetCityId := targetCity.id, targetCityName := targetCity.name,
    successProbability := successProbability, strategicValue := strategicValue,
    score := successProbability * strategicValue }

/-- aiSystem.ts `shouldRecruit`: recruit when the garrison is below 10000
troops or the adjacent hostile threat exceeds 1.5x the garrison. -/
def shouldRecruit (cityId : String) (s : GameState) : Bool :=
  match s.cities cityId with
  | none => false
  | some city =>
    let currentTroops := calculateCityTroops city s.generals
    let threats := evaluateThreat cityId s
    let totalThreat := threats.foldl (fun sum t => sum + t.troops) (0 : Int)
    if currentTroops < RECRUIT_PRIORITY_TROOPS_THRESHOLD then true
    else if (totalThreat : Rat) > (currentTroops : Rat) * 1.5 then true
    else false

/-- aiSystem.ts `findBestAttackTarget`: best-scoring adjacent hostile target
whose success probability is at least 0.6. -/
def findBestAttackTarget (fromCity : City) (faction : Faction) (s : GameState) :
    Option AttackTargetEvaluation :=
  fromCity.connectedCities.foldl
    (fun bestTarget connectedCityId =>
      match s.cities connectedCityId with
      | none => bestTarget
      | some targetCity =>
        if faction.diplomacy targetCity.faction ≠ some .hostile then bestTarget
        else
          let evaluation := evaluateAttackTarget fromCity targetCity s
          if evaluation.successProbability < MIN_ATTACK_SUCCESS_PROBABILITY then bestTarget
          else
            match bestTarget with
            | none => some evaluation
            | some best => if evaluation.score > best.score then some evaluation else bestTarget)
    none

/-- AP price of a planned AI action: recruit and develop decrement the budget
by 1, attack by 2 (aiSystem.ts `makeDecision`). -/
def aiActionCost : AIAction → Int
  | .recruit _ _ => 1
  | .develop _ _ _ => 1
  | .attack _ _ _ => 2

/-- Recruit branch of the per-city body of aiSystem.ts `makeDecision`
(priority 1, cost 1 AP): needs `shouldRecruit`, at least 1 AP, a best-politics
general, 1000 gold and 500 population. -/
def tryRecruitAction (s : GameState) (cityId : String) (city : City) (remainingAP : Int) :
    Option AIAction :=
  if shouldRecruit cityId s ∧ 1 ≤ remainingAP then
    match getBestPoliticsGeneral city s.generals with
    | some general =>
      if 1000 ≤ city.resources.gold ∧ 500 ≤ city.resources.population then
        some (.recruit cityId general.id)
      else none
    | none => none
  else none

/-- Attack branch of the per-city body of aiSystem.ts `makeDecision`
(priority 2, cost 2 AP): needs at least 2 AP, a best attack target, and a
strongest general with at least 1000 troops. -/
def tryAttackAction (s : GameState) (faction : Faction) (cityId : String) (city : City)
    (remainingAP : Int) : Option AIAction :=
  if 2 ≤ remainingAP then
    match findBestAttackTarget city faction s with
    | some attackTarget =>
      match getStrongestGeneral city s.generals with
      | some attacker =>
        if 1000 ≤ attacker.troops then
          some (.attack cityId attackTarget.targetCityId attacker.id)
        else none
      | none => none
    | none => none
  else none

/-- Develop branch of the per-city body of aiSystem.ts `makeDecision`
(priority 3, cost 1 AP): needs at least 1 AP, 100 gold and a best-politics
general; targets commerce exactly when it is lower than agriculture. -/
def tryDevelopAction (s : GameState) (cityId : String) (city : City) (remainingAP : Int) :
    Option AIAction :=
  if 1 ≤ remainingAP ∧ 100 ≤ city.resources.gold then
    match getBestPoliticsGeneral city s.generals with
    | some general =>
      some (.develop cityId general.id
        (decide (city.resources.commerce < city.resources.agriculture)))
    | none => none
  else none

/-- Per-city body of aiSystem.ts `makeDecision`: try recruit, then attack,
then develop, in that order, returning the queued action if any. -/
def makeDecisionCityStep (s : GameState) (faction : Faction) (cityId : String) (city : City)
    (remainingAP : Int) : Option AIAction :=
  match tryRecruitAction s cityId city remainingAP with
  | some a => some a
  | none =>
    match tryAttackAction s faction cityId city remainingAP with
    | some a => some a
    | none => tryDevelopAction s cityId city remainingAP

/-- City loop of aiSystem.ts `makeDecision`: walk the faction's cities in
order with a shared AP budget, stopping once the budget is exhausted. -/
def planCities (s : GameState) (faction : Faction) : List String → Int → List AIAction
  | [], _ => []
  | cityId :: rest, remainingAP =>
    if remainingAP ≤ 0 then []
    else
      match s.cities cityId with
      | none => planCities s faction rest remainingAP
      | some city =>
        match makeDecisionCityStep s faction cityId city remainingAP with
        | some action => action :: planCities s faction rest (remainingAP - aiActionCost action)
        | none => planCities s faction rest remainingAP

/-- aiSystem.ts `makeDecision`: plan from a fresh budget of 3 action points. -/
def makeDecision (factionId : String) (s : GameState) : List AIAction :=
  match s.factions factionId with
  | none => []
  | some faction => planCities s faction faction.cities 3

/-- Total AP cost of a planned action list. -/
def aiActionsCost (actions : List AIAction) : Int :=
  actions.foldr (fun a acc => aiActionCost a + acc) 0

/-- City an AI action is issued from. -/
def aiActionCity : AIAction → String
  | .recruit cityId _ => cityId
  | .develop cityId _ _ => cityId
  | .attack fromCity _ _ => fromCity

/-- aiSystem.ts `executeAIAttack`: pure battle resolution — it computes the
outcome and the casualty numbers and places them only in the returned battle
event; the game state is not part of the result. The ambient event-id
generation and the 50/50 coin flip are injected parameters. -/
def executeAIAttack (fromCityId toCityId generalId : String) (s : GameState)
    (eventId : String) (coinFlip : Rat) : Option (GameEvent × AttackResult) :=
  match s.cities fromCityId, s.cities toCityId, s.generals generalId with
  | some fromCity, some toCity, some attacker =>
    let defender := getStrongestGeneral toCity s.generals
    let attackerTroops := attacker.troops
    let attackPower :=
      calculateAttackPower attackerTroops attacker.attributes.war attacker.attributes.lead
    let defenderTroops : Int :=
      match defender with
      | some _ => calculateCityTroops toCity s.generals
      | none => 0
    let defensePower : Rat :=
      match defender with
      | some d =>
        calculateDefensePower defenderTroops d.attributes.lead d.attributes.int
          toCity.resources.defense
      | none => (toCity.resources.defense : Rat)
    let powerRatio : Rat := if defensePower > 0 then attackPower / defensePower else 10
    let result : AttackResult :=
      if powerRatio > 1.5 then .win
      else if powerRatio < 0.67 then .lose
      else if coinFlip > 0.5 then .win else .lose
    let baseCasualties : Int := ⌊(min attackerTroops defenderTroops : Rat) * 0.1⌋
    let attackerCasualties : Int :=
      if result = .win then ⌊(baseCasualties : Rat) * 0.8⌋ else ⌊(baseCasualties : Rat) * 1.2⌋
    let defenderCasualties : Int :=
      if result = .win then ⌊(baseCasualties : Rat) * 1.2⌋ else ⌊(baseCasualties : Rat) * 0.8⌋
    some
      ({ id := eventId, type := .battle, timestamp := s.currentDate,
         data := .battle
           { attacker := fromCity.faction, defender := toCity.faction,
             attackerGeneral := generalId,
             defenderGeneral := (defender.map General.id).getD "",
             result := result,
             attackerCasualties := attackerCasualties,
             defenderCasualties := defenderCasualties,
             cityCapture := if result = .win then some toCityId else none },
         narrative := none }, result)
  | _, _, _ => none

/-- aiSystem.ts `AIStateUpdate`. -/
inductive AIStateUpdate where
  | recruit (factionId cityId generalId : String) (value : Int)
  | develop (factionId cityId generalId : String) (targetCommerce : Bool) (value : Int)
  | attack (factionId fromCityId toCityId generalId : String) (result : AttackResult)
deriving DecidableEq, Repr

/-- Eviction loop body of the win branch of aiSystem.ts `applyAIStateUpdates`:
a stationed general of another faction flees to the first remaining city of
the defeated faction, if any remains. -/
def evictStep (factionId origOwner toCityId : String) (s : GameState) (stationedId : String) :
    GameState :=
  match s.generals stationedId with
  | none => s
  | some general =>
    if general.faction ≠ factionId then
      let escapeCities :=
        (match s.factions origOwner with
          | some oldFaction => oldFaction.cities
          | none => []).filter (fun c => c ≠ toCityId)
      match escapeCities with
      | [] => s
      | escapeCity :: _ =>
        ((s.updateCity toCityId
            (fun c => { c with stationedGenerals :=
              c.stationedGenerals.filter (fun g => g ≠ stationedId) })).updateCity escapeCity
            (fun c => { c with stationedGenerals := c.stationedGenerals ++ [stationedId] })).updateGeneral
          stationedId (fun g => { g with currentCity := escapeCity })
    else s

/-- Win branch of the attack case of aiSystem.ts `applyAIStateUpdates`: move
city ownership between the faction lists, relocate the attacking general, and
run the eviction loop over a snapshot of the captured city's garrison. The
JavaScript in-place mutations are threaded as sequential functional updates,
which also reproduces the aliasing when the two factions or cities coincide. -/
def applyAttackWin (s : GameState) (factionId fromCityId toCityId generalId : String) :
    GameState :=
  match s.cities fromCityId, s.cities toCityId, s.generals generalId with
  | some _fromCity, some toCity, some _attacker =>
    match s.factions toCity.faction, s.factions factionId with
    | some _oldFaction, some _newFaction =>
      let origOwner := toCity.faction
      let s1 := s.updateFaction origOwner
        (fun f => { f with cities := f.cities.filter (fun c => c ≠ toCityId) })
      let s2 := s1.updateFaction factionId
        (fun f => { f with cities := f.cities ++ [toCityId] })
      let s3 := s2.updateCity toCityId (fun c => { c with faction := factionId })
      let s4 := s3.updateCity fromCityId
        (fun c => { c with stationedGenerals :=
          c.stationedGenerals.filter (fun g => g ≠ generalId) })
      let s5 := s4.updateCity toCityId
        (fun c => { c with stationedGenerals := c.stationedGenerals ++ [generalId] })
      let s6 := s5.updateGeneral generalId (fun g => { g with currentCity := toCityId })
      let snapshot :=
        match s6.cities toCityId with
        | some c => c.stationedGenerals
        | none => []
      snapshot.foldl (evictStep factionId origOwner toCityId) s6
    | _, _ => s
  | _, _, _ => s

/-- One entry of the update loop of aiSystem.ts `applyAIStateUpdates`. -/
def applyAIStateUpdate (s : GameState) (update : AIStateUpdate) : GameState :=
  match update with
  | .recruit _ cityId generalId value =>
    match s.cities cityId, s.generals generalId with
    | some _, some _ =>
      (s.updateCity cityId
        (fun c => { c with resources :=
          { c.resources with
            gold := c.resources.gold - value * 2,
            population := c.resources.population - value,
            loyalty := max 0 (c.resources.loyalty - 3) } })).updateGeneral generalId
        (fun g => { g with troops := g.troops + value })
    | _, _ => s
  | .develop _ cityId _ targetCommerce value =>
    match s.cities cityId with
    | some _ =>
      s.updateCity cityId
        (fun c =>
          let res :=
            if targetCommerce then
              { c.resources with
                gold := c.resources.gold - 100
                commerce := min 999 (c.resources.commerce + value) }
            else
              { c.resources with
                gold := c.resources.gold - 100
                agriculture := min 999 (c.resources.agriculture + value) }
          { c with resources := res })
    | none => s
  | .attack factionId fromCityId toCityId generalId result =>
    match result with
    | .win => applyAttackWin s factionId fromCityId toCityId generalId
    | _ => s

/-- aiSystem.ts `applyAIStateUpdates`: fold the update list over the state
(the JSON deep copy is the identity in a functional model). -/
def applyAIStateUpdates (s : GameState) (updates : List AIStateUpdate) : GameState :=
  updates.foldl applyAIStateUpdate s

/-! ### Game loop event log (src/systems/gameLoop.ts, endPlayerTurn) -/

/-- Event-log update performed by gameLoop.ts `endPlayerTurn` (lines 140-153):
when the AI produced events this turn, the processed events are placed in
front of the existing log; otherwise the log is untouched. -/
def endPlayerTurnEventLog (oldLog processedEvents : List GameEvent) : List GameEvent :=
  if processedEvents.isEmpty then oldLog else processedEvents ++ oldLog

/-! ### Frame projections used by the frame-effect claims -/

/-- Every field of a general except `currentCity`. -/
def generalFrame (g : General) : String × String × String × GeneralAttributes × Int × Bool × Int :=
  (g.id, g.name, g.faction, g.attributes, g.age, g.isAlive, g.troops)

/-- Every field of a city except `faction` and `stationedGenerals`. -/
def cityFrame (c : City) :
    String × String × CityPosition × CityScale × CityResources × List String × Option String :=
  (c.id, c.name, c.position, c.scale, c.resources, c.connectedCities, c.governor)

/-- Every field of a faction except `cities`. -/
def factionFrame (f : Faction) :
    String × String × String × String × List String × (String → Option DiplomacyStatus) :=
  (f.id, f.name, f.lordId, f.color, f.generals, f.diplomacy)

/-! ### Concrete sample data used to instantiate the theorems -/

/-- Sample domestic event. -/
def evA : GameEvent :=
  { id := "e1", type := .domestic, timestamp := { year := 190, month := 1 },
    data := .domestic { city := "c1", action := "recruit", executor := "g1", value := 100 },
    narrative := none }

/-- Second sample domestic event. -/
def evB : GameEvent :=
  { id := "e2", type := .domestic, timestamp := { year := 190, month := 2 },
    data := .domestic { city := "c2", action := "develop_commerce", executor := "g2", value := 9 },
    narrative := none }

/-- Empty game state. -/
def emptyState : GameState :=
  { currentDate := { year := 190, month := 1 }, currentFaction := "", actionPoints := 3,
    phase := .player, factions := fun _ => none, cities := fun _ => none,
    generals := fun _ => none, selectedCity := none, eventLog := [] }

/-- Sample faction owning no city. -/
def cexFactionEmpty : Faction :=
  { id := "f0", name := "f0", lordId := "g0", color := "#000", cities := [],
    generals := [], diplomacy := fun _ => none }

/-- Game state holding only `cexFactionEmpty`. -/
def cexStateF0 : GameState :=
  { emptyState with factions := fun k => if k = "f0" then some cexFactionEmpty else none }

/-- Sample faction owning cityA, hostile towards `shu`. -/
def cexFactionWei : Faction :=
  { id := "wei", name := "wei", lordId := "caocao", color := "#00f", cities := ["cityA"],
    generals := [], diplomacy := fun k => if k = "shu" then some .hostile else none }

/-- Sample faction owning cityB, hostile towards `wei`. -/
def cexFactionShu : Faction :=
  { id := "shu", name := "shu", lordId := "liubei", color := "#0f0", cities := ["cityB"],
    generals := [], diplomacy := fun k => if k = "wei" then some .hostile else none }

/-- Sample city of `wei`, connected to cityB. -/
def cexCityA : City :=
  { id := "cityA", name := "cityA", faction := "wei", position := { x := 0, y := 0 },
    scale := .medium,
    resources := { population := 100000, gold := 1000, grain := 500, commerce := 300,
                   agriculture := 400, defense := 50, loyalty := 80 },
    connectedCities := ["cityB"], stationedGenerals := [], governor := none }

/-- Sample city of `shu`, connected to cityA, with an empty garrison. -/
def cexCityB : City :=
  { id := "cityB", name := "cityB", faction := "shu", position := { x := 1, y := 0 },
    scale := .small,
    resources := { population := 50000, gold := 500, grain := 200, commerce := 100,
                   agriculture := 200, defense := 30, loyalty := 70 },
    connectedCities := ["cityA"], stationedGenerals := [], governor := none }

/-- Sample attacking general of faction f1. -/
def w10General1 : General :=
  { id := "g1", name := "g1", faction := "f1",
    attributes := { lead := 50, war := 60, int := 40, pol := 70, cha := 55 },
    age := 30, isAlive := true, currentCity := "c1", troops := 5000 }

/-- Sample defending general of faction f2. -/
def w10General2 : General :=
  { id := "g2", name := "g2", faction := "f2",
    attributes := { lead := 45, war := 50, int := 35, pol := 60, cha := 40 },
    age := 35, isAlive := true, currentCity := "c2", troops := 3000 }

/-- Sample city of f1 housing g1. -/
def w10City1 : City :=
  { id := "c1", name := "c1", faction := "f1", position := { x := 0, y := 0 },
    scale := .medium,
    resources := { population := 80000, gold := 2000, grain := 900, commerce := 350,
                   agriculture := 300, defense := 40, loyalty := 75 },
    connectedCities := ["c2"], stationedGenerals := ["g1"], governor := none }

/-- Sample city of f2 housing g2, the only city of f2. -/
def w10City2 : City :=
  { id := "c2", name := "c2", faction := "f2", position := { x := 1, y := 0 },
    scale := .small,
    resources := { population := 40000, gold := 800, grain := 300, commerce := 150,
                   agriculture := 250, defense := 20, loyalty := 60 },
    connectedCities := ["c1"], stationedGenerals := ["g2"], governor := none }

/-- Sample attacking faction. -/
def w10Faction1 : Faction :=
  { id := "f1", name := "f1", lordId := "g1", color := "#f00", cities := ["c1"],
    generals := ["g1"], diplomacy := fun k => if k = "f2" then some .hostile else none }

/-- Sample defending faction whose only city is c2. -/
def w10Faction2 : Faction :=
  { id := "f2", name := "f2", lordId := "g2", color := "#0ff", cities := ["c2"],
    generals := ["g2"], diplomacy := fun k => if k = "f1" then some .hostile else none }

/-- Game state for the captured-city scenario: f2 owns only c2. -/
def w10State : GameState :=
  { emptyState with
    factions := fun k =>
      if k = "f1" then some w10Faction1
      else if k = "f2" then some w10Faction2
      else none,
    cities := fun k =>
      if k = "c1" then some w10City1
      else if k = "c2" then some w10City2
      else none,
    generals := fun k =>
      if k = "g1" then some w10General1
      else if k = "g2" then some w10General2
      else none }

/-- Game state with the hostile pair wei/shu and an empty garrison in cityB. -/
def cexThreatState : GameState :=
  { emptyState with
    factions := fun k =>
      if k = "wei" then some cexFactionWei
      else if k = "shu" then some cexFactionShu
      else none,
    cities := fun k =>
      if k = "cityA" then some cexCityA
      else if k = "cityB" then some cexCityB
      else none }

end Sanguo

namespace Sanguo

section MakeDecisionLemmas

variable {s : GameState} {faction : Faction} {cityId : String} {city : City}
variable {remainingAP : Int} {a : AIAction}

/-- A queued recruit choice is a recruit for this city and fits in the budget. -/
theorem tryRecruitAction_eq_some
    (h : tryRecruitAction s cityId city remainingAP = some a) :
    aiActionCity a = cityId ∧ aiActionCost a = 1 ∧ 1 ≤ remainingAP := by
  unfold tryRecruitAction at h
  by_cases h1 : shouldRecruit cityId s ∧ 1 ≤ remainingAP
  · rw [if_pos h1] at h
    cases hg : getBestPoliticsGeneral city s.generals with
    | none => rw [hg] at h; simp at h
    | some general =>
      rw [hg] at h
      dsimp only [] at h
      by_cases h2 : 1000 ≤ city.resources.gold ∧ 500 ≤ city.resources.population
      · rw [if_pos h2] at h
        injection h with h3
        subst h3
        exact ⟨rfl, rfl, h1.2⟩
      · rw [if_neg h2] at h; simp at h
  · rw [if_neg h1] at h; simp at h

/-- A queued attack choice is an attack from this city and fits in the budget. -/
theorem tryAttackAction_eq_some
    (h : tryAttackAction s faction cityId city remainingAP = some a) :
    aiActionCity a = cityId ∧ aiActionCost a = 2 ∧ 2 ≤ remainingAP := by
  unfold tryAttackAction at h
  by_cases h1 : 2 ≤ remainingAP
  · rw [if_pos h1] at h
    cases ht : findBestAttackTarget city faction s with
    | none => rw [ht] at h; simp at h
    | some attackTarget =>
      rw [ht] at h
      cases hg : getStrongestGeneral city s.generals with
      | none => rw [hg] at h; simp at h
      | some attacker =>
        rw [hg] at h
        dsimp only [] at h
        by_cases h2 : 1000 ≤ attacker.troops
        · rw [if_pos h2] at h
          injection h with h3
          subst h3
          exact ⟨rfl, rfl, h1⟩
        · rw [if_neg h2] at h; simp at h
  · rw [if_neg h1] at h; simp at h

/-- A queued develop choice is a develop for this city and fits in the budget. -/
theorem tryDevelopAction_eq_some
    (h : tryDevelopAction s cityId city remainingAP = some a) :
    aiActionCity a = cityId ∧ aiActionCost a = 1 ∧ 1 ≤ remainingAP := by
  unfold tryDevelopAction at h
  by_cases h1 : 1 ≤ remainingAP ∧ 100 ≤ city.resources.gold
  · rw [if_pos h1] at h
    cases hg : getBestPoliticsGeneral city s.generals with
    | none => rw [hg] at h; simp at h
    | some general =>
      rw [hg] at h
      dsimp only [] at h
      injection h with h3
      subst h3
      exact ⟨rfl, rfl, h1.1⟩
  · rw [if_neg h1] at h; simp at h

/-- Any action queued for a city comes from this city, costs at least 1 AP,
and fits in the remaining budget. -/
theorem makeDecisionCityStep_eq_some
    (h : makeDecisionCityStep s faction cityId city remainingAP = some a) :
    aiActionCity a = cityId ∧ 1 ≤ aiActionCost a ∧ aiActionCost a ≤ remainingAP := by
  unfold makeDecisionCityStep at h
  cases hr : tryRecruitAction s cityId city remainingAP with
  | some b =>
    rw [hr] at h
    cases h
    obtain ⟨hc, hcost, hap⟩ := tryRecruitAction_eq_some hr
    exact ⟨hc, by omega, by omega⟩
  | none =>
    rw [hr] at h
    cases ha : tryAttackAction s faction cityId city remainingAP with
    | some b =>
      rw [ha] at h
      cases h
      obtain ⟨hc, hcost, hap⟩ := tryAttackAction_eq_some ha
      exact ⟨hc, by omega, by omega⟩
    | none =>
      rw [ha] at h
      obtain ⟨hc, hcost, hap⟩ := tryDevelopAction_eq_some h
      exact ⟨hc, by omega, by omega⟩

end MakeDecisionLemmas

/-- The shared AP budget bounds the total cost of a city-loop plan. -/
theorem planCities_cost_le (s : GameState) (faction : Faction) :
    ∀ (cities : List String) (ap : Int), 0 ≤ ap →
      aiActionsCost (planCities s faction cities ap) ≤ ap := by
  intro cities
  induction cities with
  | nil =>
    intro ap h
    simpa [planCities, aiActionsCost] using h
  | cons c rest ih =>
    intro ap h
    by_cases h0 : ap ≤ 0
    · simpa [planCities, h0, aiActionsCost] using h
    · cases hc : s.cities c with
      | none =>
        rw [planCities, if_neg h0, hc]
        exact ih ap h
      | some city =>
        cases hstep : makeDecisionCityStep s faction c city ap with
        | none =>
          rw [planCities, if_neg h0, hc]
          dsimp only []
          rw [hstep]
          exact ih ap h
        | some a =>
          rw [planCities, if_neg h0, hc]
          dsimp only []
          rw [hstep]
          obtain ⟨_, hone, hle⟩ := makeDecisionCityStep_eq_some hstep
          have hrec := ih (ap - aiActionCost a) (by omega)
          have hcons : aiActionsCost (a :: planCities s faction rest (ap - aiActionCost a)) =
              aiActionCost a + aiActionsCost (planCities s faction rest (ap - aiActionCost a)) :=
            rfl
          rw [hcons]
          omega

/-- Every planned action is issued from a city of the processed list. -/
theorem planCities_city_mem (s : GameState) (faction : Faction) :
    ∀ (cities : List String) (ap : Int) (a : AIAction),
      a ∈ planCities s faction cities ap → aiActionCity a ∈ cities := by
  intro cities
  induction cities with
  | nil =>
    intro ap a ha
    simp [planCities] at ha
  | cons c rest ih =>
    intro ap a ha
    rw [planCities] at ha
    by_cases h0 : ap ≤ 0
    · rw [if_pos h0] at ha
      simp at ha
    · rw [if_neg h0] at ha
      cases hc : s.cities c with
      | none =>
        rw [hc] at ha
        exact List.mem_cons_of_mem _ (ih ap a ha)
      | some city =>
        rw [hc] at ha
        dsimp only [] at ha
        cases hstep : makeDecisionCityStep s faction c city ap with
        | none =>
          rw [hstep] at ha
          exact List.mem_cons_of_mem _ (ih ap a ha)
        | some b =>
          rw [hstep] at ha
          rcases List.mem_cons.mp ha with hab | hmem
          · subst hab
            exact List.mem_cons.mpr (Or.inl (makeDecisionCityStep_eq_some hstep).1)
          · exact List.mem_cons_of_mem _ (ih _ a hmem)

/-- Every action costs at least one AP, so the plan length is bounded by the
total cost. -/
theorem length_le_aiActionsCost (actions : List AIAction) :
    (actions.length : Int) ≤ aiActionsCost actions := by
  induction actions with
  | nil => simp [aiActionsCost]
  | cons a rest ih =>
    have h1 : 1 ≤ aiActionCost a := by cases a <;> simp [aiActionCost]
    have hcons : aiActionsCost (a :: rest) = aiActionCost a + aiActionsCost rest := rfl
    rw [hcons]
    simp only [List.length_cons]
    push_cast
    omega

/-- C6: `makeDecision` plans from a single shared budget of 3 action points
over the faction's own city list: the total AP cost of the returned plan
never exceeds 3, at most 3 actions are returned, and every action is issued
from one of the faction's cities. -/
theorem makeDecision_spec (factionId : String) (s : GameState) (faction : Faction)
    (h : s.factions factionId = some faction) :
    aiActionsCost (makeDecision factionId s) ≤ 3 ∧
    (makeDecision factionId s).length ≤ 3 ∧
    ∀ a ∈ makeDecision factionId s, aiActionCity a ∈ faction.cities := by
  have hm : makeDecision factionId s = planCities s faction faction.cities 3 := by
    simp [makeDecision, h]
  rw [hm]
  refine ⟨planCities_cost_le s faction faction.cities 3 (by decide), ?_,
    fun a ha => planCities_city_mem s faction faction.cities 3 a ha⟩
  have h1 := length_le_aiActionsCost (planCities s faction faction.cities 3)
  have h2 := planCities_cost_le s faction faction.cities 3 (by decide)
  exact_mod_cast le_trans h1 h2

/-- Instantiation of C6 on the cityless sample faction. -/
theorem makeDecision_spec_witness :
    aiActionsCost (makeDecision "f0" cexStateF0) ≤ 3 ∧
    (makeDecision "f0" cexStateF0).length ≤ 3 ∧
    ∀ a ∈ makeDecision "f0" cexStateF0, aiActionCity a ∈ cexFactionEmpty.cities :=
  makeDecision_spec "f0" cexStateF0 cexFactionEmpty rfl

/-- Characterization of the per-neighbour candidate of `evaluateThreat`. -/
theorem threatCandidate_eq_some_iff (myFaction : String) (s : GameState) (cid : String)
    (t : ThreatInfo) :
    threatCandidate myFaction s cid = some t ↔
      ∃ cc cf mf, s.cities cid = some cc ∧ s.factions cc.faction = some cf ∧
        s.factions myFaction = some mf ∧
        mf.diplomacy cc.faction = some DiplomacyStatus.hostile ∧ cc.faction ≠ myFaction ∧
        0 < calculateCityTroops cc s.generals ∧
        t = { factionId := cc.faction, factionName := cf.name, cityId := cid,
              cityName := cc.name, troops := calculateCityTroops cc s.generals,
              distance := 1,
              threatScore := (calculateCityTroops cc s.generals : Rat) * THREAT_TROOPS_WEIGHT
                / 1000 + THREAT_DISTANCE_WEIGHT } := by
  constructor
  · intro h
    unfold threatCandidate at h
    cases hcc : s.cities cid with
    | none => rw [hcc] at h; simp at h
    | some cc =>
      rw [hcc] at h
      dsimp only [] at h
      cases hcf : s.factions cc.faction with
      | none => rw [hcf] at h; simp at h
      | some cf =>
        rw [hcf] at h
        cases hmf : s.factions myFaction with
        | none => rw [hmf] at h; simp at h
        | some mf =>
          rw [hmf] at h
          dsimp only [] at h
          by_cases h1 : mf.diplomacy cc.faction ≠ some DiplomacyStatus.hostile ∧
              cc.faction ≠ myFaction
          · rw [if_pos h1] at h; simp at h
          · rw [if_neg h1] at h
            by_cases h2 : cc.faction = myFaction
            · rw [if_pos h2] at h; simp at h
            · rw [if_neg h2] at h
              by_cases h3 : calculateCityTroops cc s.generals ≤ 0
              · rw [if_pos h3] at h; simp at h
              · rw [if_neg h3] at h
                injection h with h4
                refine ⟨cc, cf, mf, rfl, hcf, rfl, ?_, h2, by omega, h4.symm⟩
                rcases not_and_or.mp h1 with hd | hf
                · exact not_not.mp hd
                · exact absurd (not_not.mp hf) h2
  · rintro ⟨cc, cf, mf, hcc, hcf, hmf, hd, hne, hpos, ht⟩
    subst ht
    unfold threatCandidate
    rw [hcc]
    dsimp only []
    rw [hcf, hmf]
    dsimp only []
    rw [if_neg (by intro hcontra; exact hcontra.1 hd)]
    rw [if_neg hne]
    rw [if_neg (by omega)]

/-- C7 counterexample: cityB is directly connected to cityA, has a different
owner, and cityA's faction is hostile towards that owner, yet cityB does not
appear in `evaluateThreat`'s result because its garrison troops are zero. -/
theorem evaluateThreat_claim_counterexample :
    cexThreatState.cities "cityA" = some cexCityA ∧
    "cityB" ∈ cexCityA.connectedCities ∧
    cexThreatState.cities "cityB" = some cexCityB ∧
    cexCityB.faction ≠ cexCityA.faction ∧
    cexFactionWei.diplomacy cexCityB.faction = some DiplomacyStatus.hostile ∧
    evaluateThreat "cityA" cexThreatState = [] := by decide

/-- C7 (amended): a directly connected city appears in `evaluateThreat`'s
result exactly when it and both factions resolve, its owner differs from the
evaluated city's owner, the evaluated city's faction is hostile towards that
owner, and its garrison of living stationed generals has positive troops;
every reported threat has distance 1 and score `troops/1000 * 1.0 + 2.0`, and
the list is sorted by descending threat score. -/
theorem evaluateThreat_spec (cityId : String) (s : GameState) (city : City)
    (h : s.cities cityId = some city) :
    (∀ c : String,
      (∃ t ∈ evaluateThreat cityId s, t.cityId = c) ↔
        (c ∈ city.connectedCities ∧
          ∃ cc, s.cities c = some cc ∧
            cc.faction ≠ city.faction ∧
            (∃ mf, s.factions city.faction = some mf ∧
              mf.diplomacy cc.faction = some DiplomacyStatus.hostile) ∧
            (∃ cf, s.factions cc.faction = some cf) ∧
            0 < calculateCityTroops cc s.generals)) ∧
    (∀ t ∈ evaluateThreat cityId s,
      t.distance = 1 ∧ t.threatScore = (t.troops : Rat) * 1 / 1000 + 2) ∧
    List.Sorted threatGE (evaluateThreat cityId s) := by
  have hev : evaluateThreat cityId s =
      (city.connectedCities.filterMap (threatCandidate city.faction s)).insertionSort
        threatGE := by
    unfold evaluateThreat
    rw [h]
  refine ⟨?_, ?_, ?_⟩
  · intro c
    constructor
    · rintro ⟨t, htmem, rfl⟩
      rw [hev, List.mem_insertionSort] at htmem
      obtain ⟨cid0, hcid0, hcand⟩ := List.mem_filterMap.mp htmem
      obtain ⟨cc, cf, mf, hcc, hcf, hmf, hd, hne, hpos, htEq⟩ :=
        (threatCandidate_eq_some_iff _ _ _ _).mp hcand
      subst htEq
      exact ⟨hcid0, cc, hcc, hne, ⟨mf, hmf, hd⟩, ⟨cf, hcf⟩, hpos⟩
    · rintro ⟨hcmem, cc, hcc, hne, ⟨mf, hmf, hd⟩, ⟨cf, hcf⟩, hpos⟩
      refine ⟨{ factionId := cc.faction, factionName := cf.name, cityId := c,
                cityName := cc.name, troops := calculateCityTroops cc s.generals,
                distance := 1,
                threatScore := (calculateCityTroops cc s.generals : Rat) * THREAT_TROOPS_WEIGHT
                  / 1000 + THREAT_DISTANCE_WEIGHT }, ?_, rfl⟩
      rw [hev, List.mem_insertionSort]
      exact List.mem_filterMap.mpr ⟨c, hcmem,
        (threatCandidate_eq_some_iff _ _ _ _).mpr
          ⟨cc, cf, mf, hcc, hcf, hmf, hd, hne, hpos, rfl⟩⟩
  · intro t htmem
    rw [hev, List.mem_insertionSort] at htmem
    obtain ⟨cid0, _, hcand⟩ := List.mem_filterMap.mp htmem
    obtain ⟨cc, cf, mf, _, _, _, _, _, _, htEq⟩ :=
      (threatCandidate_eq_some_iff _ _ _ _).mp hcand
    subst htEq
    refine ⟨rfl, ?_⟩
    show (calculateCityTroops cc s.generals : Rat) * THREAT_TROOPS_WEIGHT / 1000
        + THREAT_DISTANCE_WEIGHT =
      (calculateCityTroops cc s.generals : Rat) * 1 / 1000 + 2
    norm_num [THREAT_TROOPS_WEIGHT, THREAT_DISTANCE_WEIGHT]
  · rw [hev]
    exact List.sorted_insertionSort threatGE _

/-- Instantiation of C7 (amended) at the wei/shu sample state. -/
theorem evaluateThreat_spec_witness :
    List.Sorted threatGE (evaluateThreat "cityA" cexThreatState) ∧
    ∀ t ∈ evaluateThreat "cityA" cexThreatState,
      t.distance = 1 ∧ t.threatScore = (t.troops : Rat) * 1 / 1000 + 2 :=
  ⟨(evaluateThreat_spec "cityA" cexThreatState cexCityA (by decide)).2.2,
    (evaluateThreat_spec "cityA" cexThreatState cexCityA (by decide)).2.1⟩

/-- Updating a city entry leaves the generals table untouched. -/
theorem updateCity_generals (s : GameState) (cid : String) (f : City → City) :
    (s.updateCity cid f).generals = s.generals := rfl

/-- Updating a city entry leaves the factions table untouched. -/
theorem updateCity_factions (s : GameState) (cid : String) (f : City → City) :
    (s.updateCity cid f).factions = s.factions := rfl

/-- Updating a city entry leaves the event log untouched. -/
theorem updateCity_eventLog (s : GameState) (cid : String) (f : City → City) :
    (s.updateCity cid f).eventLog = s.eventLog := rfl

/-- Updating a faction entry leaves the cities table untouched. -/
theorem updateFaction_cities (s : GameState) (fid : String) (f : Faction → Faction) :
    (s.updateFaction fid f).cities = s.cities := rfl

/-- Updating a faction entry leaves the generals table untouched. -/
theorem updateFaction_generals (s : GameState) (fid : String) (f : Faction → Faction) :
    (s.updateFaction fid f).generals = s.generals := rfl

/-- Updating a faction entry leaves the event log untouched. -/
theorem updateFaction_eventLog (s : GameState) (fid : String) (f : Faction → Faction) :
    (s.updateFaction fid f).eventLog = s.eventLog := rfl

/-- Updating a general entry leaves the cities table untouched. -/
theorem updateGeneral_cities (s : GameState) (gid : String) (f : General → General) :
    (s.updateGeneral gid f).cities = s.cities := rfl

/-- Updating a general entry leaves the factions table untouched. -/
theorem updateGeneral_factions (s : GameState) (gid : String) (f : General → General) :
    (s.updateGeneral gid f).factions = s.factions := rfl

/-- Updating a general entry leaves the event log untouched. -/
theorem updateGeneral_eventLog (s : GameState) (gid : String) (f : General → General) :
    (s.updateGeneral gid f).eventLog = s.eventLog := rfl

/-- A city update whose map preserves the city frame preserves it at every key. -/
theorem updateCity_cities_frame (s : GameState) (cid : String) (f : City → City)
    (hf : ∀ c, cityFrame (f c) = cityFrame c) (id : String) :
    (((s.updateCity cid f).cities) id).map cityFrame = ((s.cities) id).map cityFrame := by
  show ((if id = cid then (s.cities id).map f else s.cities id).map cityFrame) = _
  by_cases hid : id = cid
  · rw [if_pos hid]
    cases s.cities id <;> simp [hf]
  · rw [if_neg hid]

/-- A general update whose map preserves the general frame preserves it at
every key. -/
theorem updateGeneral_generals_frame (s : GameState) (gid : String) (f : General → General)
    (hf : ∀ g, generalFrame (f g) = generalFrame g) (id : String) :
    (((s.updateGeneral gid f).generals) id).map generalFrame
      = ((s.generals) id).map generalFrame := by
  show ((if id = gid then (s.generals id).map f else s.generals id).map generalFrame) = _
  by_cases hid : id = gid
  · rw [if_pos hid]
    cases s.generals id <;> simp [hf]
  · rw [if_neg hid]

/-- A faction update whose map preserves the faction frame preserves it at
every key. -/
theorem updateFaction_factions_frame (s : GameState) (fid : String) (f : Faction → Faction)
    (hf : ∀ g, factionFrame (f g) = factionFrame g) (id : String) :
    (((s.updateFaction fid f).factions) id).map factionFrame
      = ((s.factions) id).map factionFrame := by
  show ((if id = fid then (s.factions id).map f else s.factions id).map factionFrame) = _
  by_cases hid : id = fid
  · rw [if_pos hid]
    cases s.factions id <;> simp [hf]
  · rw [if_neg hid]

/-- The eviction step never changes the city frame of any city. -/
theorem evictStep_cities_frame (fid orig toC : String) (s : GameState) (x : String)
    (id : String) :
    (((evictStep fid orig toC s x).cities) id).map cityFrame
      = ((s.cities) id).map cityFrame := by
  unfold evictStep
  cases hg : s.generals x with
  | none => rfl
  | some general =>
    dsimp only []
    by_cases hf : general.faction ≠ fid
    · rw [if_pos hf]
      cases hesc : (match s.factions orig with
          | some oldFaction => oldFaction.cities
          | none => []).filter (fun c => c ≠ toC) with
      | nil => rfl
      | cons e rest =>
        dsimp only []
        rw [updateGeneral_cities, updateCity_cities_frame, updateCity_cities_frame]
        all_goals exact fun _ => rfl
    · rw [if_neg hf]

/-- The eviction step never changes the general frame of any general. -/
theorem evictStep_generals_frame (fid orig toC : String) (s : GameState) (x : String)
    (id : String) :
    (((evictStep fid orig toC s x).generals) id).map generalFrame
      = ((s.generals) id).map generalFrame := by
  unfold evictStep
  cases hg : s.generals x with
  | none => rfl
  | some general =>
    dsimp only []
    by_cases hf : general.faction ≠ fid
    · rw [if_pos hf]
      cases hesc : (match s.factions orig with
          | some oldFaction => oldFaction.cities
          | none => []).filter (fun c => c ≠ toC) with
      | nil => rfl
      | cons e rest =>
        dsimp only []
        rw [updateGeneral_generals_frame]
        · rfl
        · exact fun _ => rfl
    · rw [if_neg hf]

/-- The eviction step never changes the factions table. -/
theorem evictStep_factions (fid orig toC : String) (s : GameState) (x : String) :
    (evictStep fid orig toC s x).factions = s.factions := by
  unfold evictStep
  cases hg : s.generals x with
  | none => rfl
  | some general =>
    dsimp only []
    by_cases hf : general.faction ≠ fid
    · rw [if_pos hf]
      cases hesc : (match s.factions orig with
          | some oldFaction => oldFaction.cities
          | none => []).filter (fun c => c ≠ toC) with
      | nil => rfl
      | cons e rest => rfl
    · rw [if_neg hf]

/-- The eviction step never changes the event log. -/
theorem evictStep_eventLog (fid orig toC : String) (s : GameState) (x : String) :
    (evictStep fid orig toC s x).eventLog = s.eventLog := by
  unfold evictStep
  cases hg : s.generals x with
  | none => rfl
  | some general =>
    dsimp only []
    by_cases hf : general.faction ≠ fid
    · rw [if_pos hf]
      cases hesc : (match s.factions orig with
          | some oldFaction => oldFaction.cities
          | none => []).filter (fun c => c ≠ toC) with
      | nil => rfl
      | cons e rest => rfl
    · rw [if_neg hf]

/-- The whole eviction loop never changes the city frame of any city. -/
theorem foldl_evictStep_cities_frame (fid orig toC : String) :
    ∀ (l : List String) (s : GameState) (id : String),
      (((l.foldl (evictStep fid orig toC) s).cities) id).map cityFrame
        = ((s.cities) id).map cityFrame := by
  intro l
  induction l with
  | nil => intro s id; rfl
  | cons x xs ih =>
    intro s id
    rw [List.foldl_cons, ih, evictStep_cities_frame]

/-- The whole eviction loop never changes the general frame of any general. -/
theorem foldl_evictStep_generals_frame (fid orig toC : String) :
    ∀ (l : List String) (s : GameState) (id : String),
      (((l.foldl (evictStep fid orig toC) s).generals) id).map generalFrame
        = ((s.generals) id).map generalFrame := by
  intro l
  induction l with
  | nil => intro s id; rfl
  | cons x xs ih =>
    intro s id
    rw [List.foldl_cons, ih, evictStep_generals_frame]

/-- The whole eviction loop never changes the factions table. -/
theorem foldl_evictStep_factions (fid orig toC : String) :
    ∀ (l : List String) (s : GameState),
      (l.foldl (evictStep fid orig toC) s).factions = s.factions := by
  intro l
  induction l with
  | nil => intro s; rfl
  | cons x xs ih =>
    intro s
    rw [List.foldl_cons, ih, evictStep_factions]

/-- The whole eviction loop never changes the event log. -/
theorem foldl_evictStep_eventLog (fid orig toC : String) :
    ∀ (l : List String) (s : GameState),
      (l.foldl (evictStep fid orig toC) s).eventLog = s.eventLog := by
  intro l
  induction l with
  | nil => intro s; rfl
  | cons x xs ih =>
    intro s
    rw [List.foldl_cons, ih, evictStep_eventLog]

/-- Equal general frames have equal troops. -/
theorem map_troops_of_map_generalFrame {o1 o2 : Option General}
    (h : o1.map generalFrame = o2.map generalFrame) :
    o1.map General.troops = o2.map General.troops := by
  cases o1 <;> cases o2 <;> simp_all [generalFrame, Prod.ext_iff]

/-- Equal city frames have equal resources. -/
theorem map_resources_of_map_cityFrame {o1 o2 : Option City}
    (h : o1.map cityFrame = o2.map cityFrame) :
    o1.map City.resources = o2.map City.resources := by
  cases o1 <;> cases o2 <;> simp_all [cityFrame, Prod.ext_iff]

/-- The win branch of an AI attack update touches only city ownership,
faction city lists, garrison lists and generals' current city: the city
frame, general frame and faction frame of every entry, and the event log,
are preserved. -/
theorem applyAttackWin_frame (s : GameState) (fid fromC toC gid : String) :
    (∀ id, (((applyAttackWin s fid fromC toC gid).cities) id).map cityFrame
        = ((s.cities) id).map cityFrame) ∧
    (∀ id, (((applyAttackWin s fid fromC toC gid).generals) id).map generalFrame
        = ((s.generals) id).map generalFrame) ∧
    (∀ id, (((applyAttackWin s fid fromC toC gid).factions) id).map factionFrame
        = ((s.factions) id).map factionFrame) ∧
    (applyAttackWin s fid fromC toC gid).eventLog = s.eventLog := by
  unfold applyAttackWin
  rcases hfc : s.cities fromC with _ | fromCity <;>
    rcases htc : s.cities toC with _ | toCity <;>
      rcases hg : s.generals gid with _ | attacker
  case some.some.some =>
    dsimp only []
    rcases hof : s.factions toCity.faction with _ | oldFaction <;>
      rcases hnf : s.factions fid with _ | newFaction
    case some.some =>
      dsimp only []
      refine ⟨fun id => ?_, fun id => ?_, fun id => ?_, ?_⟩
      · rw [foldl_evictStep_cities_frame, updateGeneral_cities,
          updateCity_cities_frame, updateCity_cities_frame, updateCity_cities_frame,
          updateFaction_cities, updateFaction_cities]
        all_goals exact fun _ => rfl
      · rw [foldl_evictStep_generals_frame, updateGeneral_generals_frame]
        · rfl
        · exact fun _ => rfl
      · rw [foldl_evictStep_factions, updateGeneral_factions, updateCity_factions,
          updateCity_factions, updateCity_factions, updateFaction_factions_frame,
          updateFaction_factions_frame]
        all_goals exact fun _ => rfl
      · rw [foldl_evictStep_eventLog, updateGeneral_eventLog, updateCity_eventLog,
          updateCity_eventLog, updateCity_eventLog, updateFaction_eventLog,
          updateFaction_eventLog]
    all_goals exact ⟨fun _ => rfl, fun _ => rfl, fun _ => rfl, rfl⟩
  all_goals exact ⟨fun _ => rfl, fun _ => rfl, fun _ => rfl, rfl⟩

/-- C9: applying an AI attack state update never changes any general's troops
and never changes any city's resources; beyond that it can only change city
ownership, faction city lists, garrison lists and generals' current city (all
other fields, and the event log, are untouched), and on a non-win result it
changes nothing at all. The casualty numbers of `executeAIAttack` live only
in the emitted battle event: the attack update record carries only the
result, so they cannot reach the state. -/
theorem applyAIStateUpdate_attack_frame (s : GameState)
    (factionId fromCityId toCityId generalId : String) (result : AttackResult) :
    (∀ id, ((applyAIStateUpdate s
        (.attack factionId fromCityId toCityId generalId result)).generals id).map
        General.troops = (s.generals id).map General.troops) ∧
    (∀ id, ((applyAIStateUpdate s
        (.attack factionId fromCityId toCityId generalId result)).cities id).map
        City.resources = (s.cities id).map City.resources) ∧
    (∀ id, ((applyAIStateUpdate s
        (.attack factionId fromCityId toCityId generalId result)).generals id).map
        generalFrame = (s.generals id).map generalFrame) ∧
    (∀ id, ((applyAIStateUpdate s
        (.attack factionId fromCityId toCityId generalId result)).cities id).map
        cityFrame = (s.cities id).map cityFrame) ∧
    (∀ id, ((applyAIStateUpdate s
        (.attack factionId fromCityId toCityId generalId result)).factions id).map
        factionFrame = (s.factions id).map factionFrame) ∧
    (applyAIStateUpdate s
        (.attack factionId fromCityId toCityId generalId result)).eventLog = s.eventLog ∧
    (result ≠ .win →
      applyAIStateUpdate s (.attack factionId fromCityId toCityId generalId result) = s) := by
  cases result with
  | win =>
    have hred : applyAIStateUpdate s (.attack factionId fromCityId toCityId generalId .win)
        = applyAttackWin s factionId fromCityId toCityId generalId := rfl
    obtain ⟨hc, hgn, hfa, hev⟩ := applyAttackWin_frame s factionId fromCityId toCityId generalId
    rw [hred]
    exact ⟨fun id => map_troops_of_map_generalFrame (hgn id),
      fun id => map_resources_of_map_cityFrame (hc id), hgn, hc, hfa, hev,
      fun hcontra => absurd rfl hcontra⟩
  | lose =>
    exact ⟨fun _ => rfl, fun _ => rfl, fun _ => rfl, fun _ => rfl, fun _ => rfl, rfl,
      fun _ => rfl⟩
  | draw =>
    exact ⟨fun _ => rfl, fun _ => rfl, fun _ => rfl, fun _ => rfl, fun _ => rfl, rfl,
      fun _ => rfl⟩

/-- Instantiation of C9 at the empty state and a lost attack: nothing changes. -/
theorem applyAIStateUpdate_attack_frame_witness :
    applyAIStateUpdate emptyState
      (.attack "f2" "c1" "c2" "g1" AttackResult.lose) = emptyState :=
  (applyAIStateUpdate_attack_frame emptyState "f2" "c1" "c2" "g1"
    AttackResult.lose).2.2.2.2.2.2 (by decide)

/-- Pointwise form of a faction-table update. -/
theorem updateFaction_factions_apply (s : GameState) (fid : String) (f : Faction → Faction)
    (id : String) :
    (s.updateFaction fid f).factions id =
      if id = fid then (s.factions id).map f else s.factions id := rfl

/-- Pointwise form of a city-table update. -/
theorem updateCity_cities_apply (s : GameState) (cid : String) (f : City → City)
    (id : String) :
    (s.updateCity cid f).cities id =
      if id = cid then (s.cities id).map f else s.cities id := rfl

/-- Pointwise form of a general-table update. -/
theorem updateGeneral_generals_apply (s : GameState) (gid : String) (f : General → General)
    (id : String) :
    (s.updateGeneral gid f).generals id =
      if id = gid then (s.generals id).map f else s.generals id := rfl

/-- When the defeated faction has no remaining city, the eviction step is the
identity. -/
theorem evictStep_of_no_escape (fid orig toC : String) (s : GameState) (x : String)
    (f0 : Faction) (h1 : s.factions orig = some f0)
    (h2 : f0.cities.filter (fun c => c ≠ toC) = []) :
    evictStep fid orig toC s x = s := by
  unfold evictStep
  cases hg : s.generals x with
  | none => rfl
  | some general =>
    dsimp only []
    by_cases hf : general.faction ≠ fid
    · rw [if_pos hf, h1]
      dsimp only []
      rw [h2]
    · rw [if_neg hf]

/-- When the defeated faction has no remaining city, the whole eviction loop
is the identity. -/
theorem foldl_evictStep_of_no_escape (fid orig toC : String) :
    ∀ (l : List String) (s : GameState) (f0 : Faction),
      s.factions orig = some f0 → f0.cities.filter (fun c => c ≠ toC) = [] →
      l.foldl (evictStep fid orig toC) s = s := by
  intro l
  induction l with
  | nil => intro s f0 h1 h2; rfl
  | cons x xs ih =>
    intro s f0 h1 h2
    rw [List.foldl_cons, evictStep_of_no_escape fid orig toC s x f0 h1 h2]
    exact ih s f0 h1 h2

/-- C10: on a won AI attack whose defeated faction owns no city other than
the captured one, every defending general other than the arriving attacker
stays stationed in the captured city and its general record (hence its
faction and currentCity) is completely unchanged — the captured city ends up
garrisoned by generals of the eliminated faction. -/
theorem applyAIStateUpdate_attack_no_eviction
    (s : GameState) (factionId fromCityId toCityId generalId : String)
    (fromCity toCity : City) (attacker : General) (oldFaction newFaction : Faction)
    (hfc : s.cities fromCityId = some fromCity)
    (htc : s.cities toCityId = some toCity)
    (hg : s.generals generalId = some attacker)
    (hof : s.factions toCity.faction = some oldFaction)
    (hnf : s.factions factionId = some newFaction)
    (hdiff : toCity.faction ≠ factionId)
    (hlast : oldFaction.cities.filter (fun c => c ≠ toCityId) = []) :
    ∀ gid ∈ toCity.stationedGenerals, gid ≠ generalId →
      (∃ c, (applyAIStateUpdate s
          (.attack factionId fromCityId toCityId generalId .win)).cities toCityId = some c ∧
        gid ∈ c.stationedGenerals) ∧
      (applyAIStateUpdate s
          (.attack factionId fromCityId toCityId generalId .win)).generals gid
        = s.generals gid := by
  intro gid hmem hne
  have hred : applyAIStateUpdate s (.attack factionId fromCityId toCityId generalId .win)
      = applyAttackWin s factionId fromCityId toCityId generalId := rfl
  rw [hred]
  unfold applyAttackWin
  rw [hfc, htc, hg]
  dsimp only []
  rw [hof, hnf]
  dsimp only []
  rw [foldl_evictStep_of_no_escape factionId toCity.faction toCityId _ _
    { oldFaction with cities := oldFaction.cities.filter (fun c => c ≠ toCityId) }]
  · constructor
    · rw [updateGeneral_cities, updateCity_cities_apply, if_pos rfl,
        updateCity_cities_apply]
      by_cases hft : toCityId = fromCityId
      · rw [if_pos hft, updateCity_cities_apply, if_pos rfl, updateFaction_cities,
          updateFaction_cities, htc]
        refine ⟨_, rfl, ?_⟩
        dsimp only []
        refine List.mem_append_left _ ?_
        exact List.mem_filter.mpr ⟨hmem, by simp [hne]⟩
      · rw [if_neg hft, updateCity_cities_apply, if_pos rfl, updateFaction_cities,
          updateFaction_cities, htc]
        refine ⟨_, rfl, ?_⟩
        dsimp only []
        exact List.mem_append_left _ hmem
    · rw [updateGeneral_generals_apply, if_neg hne]
      rfl
  · rw [updateGeneral_factions, updateCity_factions, updateCity_factions,
      updateCity_factions, updateFaction_factions_apply, if_neg hdiff,
      updateFaction_factions_apply, if_pos rfl, hof]
    rfl
  · dsimp only []
    rw [hlast]
    rfl

/-- Instantiation of C10: f1 captures c2, the only city of f2; the defender
g2 stays in c2 with an unchanged record. -/
theorem applyAIStateUpdate_attack_no_eviction_witness :
    (∃ c, (applyAIStateUpdate w10State
        (.attack "f1" "c1" "c2" "g1" .win)).cities "c2" = some c ∧
      "g2" ∈ c.stationedGenerals) ∧
    (applyAIStateUpdate w10State
        (.attack "f1" "c1" "c2" "g1" .win)).generals "g2" = w10State.generals "g2" :=
  applyAIStateUpdate_attack_no_eviction w10State "f1" "c1" "c2" "g1" w10City1 w10City2
    w10General1 w10Faction2 w10Faction1 (by decide) (by decide) (by decide) rfl rfl
    (by decide) (by decide) "g2" (by decide) (by decide)

end Sanguo

namespace Sanguo

/-! ### Theorems -/

/-- C1: `executeDevelopment` with `gold < 100` fails with no gold spent and no
value change; otherwise it spends exactly 100 gold, moves the value to
`min (currentValue + (floor(executorPol/5) + rand), maxValue)`, reports the
post-clamp increase, and never exceeds `maxValue`. -/
theorem executeDevelopment_spec (gold v pol maxV rand : Int)
    (h1 : 1 ≤ rand) (h2 : rand ≤ 5) :
    (gold < 100 →
      executeDevelopment gold v pol maxV rand =
        { success := false, goldSpent := 0, valueIncrease := 0, newValue := v,
          error := some "金钱不足" }) ∧
    (100 ≤ gold →
      (executeDevelopment gold v pol maxV rand).success = true ∧
      (executeDevelopment gold v pol maxV rand).goldSpent = 100 ∧
      (executeDevelopment gold v pol maxV rand).newValue =
        min (v + (Int.fdiv pol 5 + rand)) maxV ∧
      (executeDevelopment gold v pol maxV rand).valueIncrease =
        (executeDevelopment gold v pol maxV rand).newValue - v ∧
      (executeDevelopment gold v pol maxV rand).newValue ≤ maxV) := by
  constructor
  · intro h
    simp [executeDevelopment, DEVELOPMENT_GOLD_COST, h]
  · intro h
    have h3 : ¬ gold < 100 := by omega
    simp [executeDevelopment, DEVELOPMENT_GOLD_COST, calculateDevelopmentIncrease, h3]

/-- Instantiation of C1 at gold 200, value 50, pol 30, rand 3. -/
theorem executeDevelopment_spec_witness :
    (executeDevelopment 200 50 30 999 3).success = true ∧
    (executeDevelopment 200 50 30 999 3).newValue = 59 :=
  ⟨((executeDevelopment_spec 200 50 30 999 3 (by decide) (by decide)).2 (by decide)).1,
    by decide⟩

/-- C2: `executeRecruitment` with `soldiers = lead*10 + cha*5` fails on gold
first (returning all-zero fields) iff `gold < soldiers*2`, then on population
iff `population < soldiers*1`, and otherwise succeeds with the stated costs
and `loyaltyDecrease = max(1, 5 - floor(cha/20))`. -/
theorem executeRecruitment_spec (res : CityResources) (lead cha soldiers : Int)
    (hs : soldiers = lead * 10 + cha * 5) :
    ((executeRecruitment res lead cha).success = false ∧
      (executeRecruitment res lead cha).goldSpent = 0 ∧
      (executeRecruitment res lead cha).populationSpent = 0 ∧
      (executeRecruitment res lead cha).soldiersGained = 0 ∧
      (executeRecruitment res lead cha).loyaltyDecrease = 0 ∧
      (executeRecruitment res lead cha).error = some "金钱不足" ↔
      res.gold < soldiers * 2) ∧
    (soldiers * 2 ≤ res.gold →
      ((executeRecruitment res lead cha).success = false ∧
        (executeRecruitment res lead cha).goldSpent = 0 ∧
        (executeRecruitment res lead cha).populationSpent = 0 ∧
        (executeRecruitment res lead cha).soldiersGained = 0 ∧
        (executeRecruitment res lead cha).loyaltyDecrease = 0 ∧
        (executeRecruitment res lead cha).error = some "人口不足" ↔
        res.population < soldiers * 1)) ∧
    (soldiers * 2 ≤ res.gold → soldiers * 1 ≤ res.population →
      executeRecruitment res lead cha =
        { success := true, goldSpent := soldiers * 2, populationSpent := soldiers * 1,
          soldiersGained := soldiers,
          loyaltyDecrease := max 1 (5 - Int.fdiv cha 20), error := none }) := by
  subst hs
  have hne : ¬ (("人口不足" : String) = "金钱不足") := by decide
  by_cases hg : res.gold < (lead * 10 + cha * 5) * 2
  · refine ⟨?_, fun h2 => absurd hg (by omega), fun h2 _ => absurd hg (by omega)⟩
    simp [executeRecruitment, calculateRecruitmentSoldiers, calculateLoyaltyDecrease,
      RECRUITMENT_GOLD_PER_SOLDIER, RECRUITMENT_POPULATION_PER_SOLDIER,
      RECRUITMENT_BASE_LOYALTY_DECREASE, hg]
  · by_cases hp : res.population < lead * 10 + cha * 5
    · refine ⟨?_, fun _ => ?_, fun _ h3 => absurd hp (by omega)⟩ <;>
        simp [executeRecruitment, calculateRecruitmentSoldiers, calculateLoyaltyDecrease,
          RECRUITMENT_GOLD_PER_SOLDIER, RECRUITMENT_POPULATION_PER_SOLDIER,
          RECRUITMENT_BASE_LOYALTY_DECREASE, hg, hp, hne]
    · refine ⟨?_, fun _ => ?_, fun _ _ => ?_⟩ <;>
        simp [executeRecruitment, calculateRecruitmentSoldiers, calculateLoyaltyDecrease,
          RECRUITMENT_GOLD_PER_SOLDIER, RECRUITMENT_POPULATION_PER_SOLDIER,
          RECRUITMENT_BASE_LOYALTY_DECREASE, hg, hp, hne]

/-- Instantiation of C2 at the spec scenario lead 90, cha 40 with ample
resources. -/
theorem executeRecruitment_spec_witness :
    executeRecruitment
      { population := 300000, gold := 5000, grain := 0, commerce := 500,
        agriculture := 400, defense := 50, loyalty := 80 } 90 40 =
      { success := true, goldSpent := 2200, populationSpent := 1100,
        soldiersGained := 1100, loyaltyDecrease := 3, error := none } := by
  have h := (executeRecruitment_spec
    { population := 300000, gold := 5000, grain := 0, commerce := 500,
      agriculture := 400, defense := 50, loyalty := 80 } 90 40 1100 (by decide)).2.2
    (by decide) (by decide)
  simpa using h

/-- C4: `deductActionPoints` (costs 1/1/2) fails without mutation when the
cost exceeds the current AP and otherwise subtracts exactly the cost; hence
from 3 AP `validateAPConsumption` always reports a non-negative final AP and
reports `allValid = false` exactly when the greedy run hits an unaffordable
deduction. -/
theorem apConsumption_spec :
    (getActionPointCost .domestic = 1 ∧ getActionPointCost .movement = 1 ∧
      getActionPointCost .campaign = 2) ∧
    (∀ (current : Int) (t : ActionType),
      (current < getActionPointCost t →
        deductActionPoints current t =
          { success := false, remainingAP := current, deducted := 0,
            error := some (apInsufficientMsg (getActionPointCost t) current) }) ∧
      (getActionPointCost t ≤ current →
        deductActionPoints current t =
          { success := true, remainingAP := current - getActionPointCost t,
            deducted := getActionPointCost t, error := none })) ∧
    (∀ actions : List ActionType,
      0 ≤ (validateAPConsumption 3 actions).finalAP ∧
      ((validateAPConsumption 3 actions).allValid = false ↔
        apSeqAffordable 3 actions = false)) := by
  have loop : ∀ (actions : List ActionType) (ap : Int), 0 ≤ ap →
      0 ≤ (consumeAPLoop ap actions).1 ∧
        (consumeAPLoop ap actions).2 = apSeqAffordable ap actions := by
    intro actions
    induction actions with
    | nil => intro ap h; simp [consumeAPLoop, apSeqAffordable, h]
    | cons a rest ih =>
      intro ap h
      by_cases hc : ap < getActionPointCost a
      · simp [consumeAPLoop, deductActionPoints, hc, apSeqAffordable, h]
      · simp only [consumeAPLoop, deductActionPoints, hc, if_false, apSeqAffordable, if_pos]
        simpa using ih (ap - getActionPointCost a) (by omega)
  refine ⟨by decide, ?_, ?_⟩
  · intro current t
    constructor
    · intro h
      simp [deductActionPoints, h]
    · intro h
      simp [deductActionPoints, not_lt.mpr h, not_lt_of_ge h]
  · intro actions
    obtain ⟨h1, h2⟩ := loop actions 3 (by decide)
    constructor
    · simpa [validateAPConsumption] using h1
    · simp [validateAPConsumption, h2, not_lt.mpr h1]

/-- Instantiation of C4 on the sequence campaign-campaign from 3 AP: the
second campaign is unaffordable. -/
theorem apConsumption_spec_witness :
    (validateAPConsumption 3 [ActionType.campaign, ActionType.campaign]).allValid = false :=
  ((apConsumption_spec.2.2 [ActionType.campaign, ActionType.campaign]).2).mpr (by decide)

/-- C5: `advanceMonth` increments the month, wrapping `{y,12}` to `{y+1,1}`
with `yearChanged = true`, and flags January / July exactly when the new
month is 1 / 7. -/
theorem advanceMonth_spec (y m : Int) (h1 : 1 ≤ m) (h2 : m ≤ 12) :
    (m < 12 →
      (advanceMonth { year := y, month := m }).newDate = { year := y, month := m + 1 } ∧
      (advanceMonth { year := y, month := m }).yearChanged = false) ∧
    (m = 12 →
      (advanceMonth { year := y, month := m }).newDate = { year := y + 1, month := 1 } ∧
      (advanceMonth { year := y, month := m }).yearChanged = true) ∧
    ((advanceMonth { year := y, month := m }).isJanuary = true ↔
      (advanceMonth { year := y, month := m }).newDate.month = 1) ∧
    ((advanceMonth { year := y, month := m }).isJuly = true ↔
      (advanceMonth { year := y, month := m }).newDate.month = 7) := by
  by_cases hw : m + 1 > 12
  · have hm : m = 12 := by omega
    subst hm
    refine ⟨by omega, fun _ => by simp [advanceMonth], ?_, ?_⟩ <;>
      simp [advanceMonth]
  · have hm : m < 12 := by omega
    refine ⟨fun _ => by simp [advanceMonth, hw], fun h => by omega, ?_, ?_⟩ <;>
      simp [advanceMonth, hw]

/-- Instantiation of C5 at the December date {190, 12}. -/
theorem advanceMonth_spec_witness :
    (advanceMonth { year := 190, month := 12 }).newDate = { year := 191, month := 1 } ∧
    (advanceMonth { year := 190, month := 12 }).yearChanged = true :=
  (advanceMonth_spec 190 12 (by decide) (by decide)).2.1 rfl

/-- Characterization of the battle.ts instant-kill check. -/
theorem checkInstantKill_eq_true_iff (aw dw : Int) (r : Rat) :
    checkInstantKill aw dw r = true ↔ 20 < |aw - dw| ∧ r < 0.01 := by
  unfold checkInstantKill INSTANT_KILL_WAR_DIFF_THRESHOLD INSTANT_KILL_PROBABILITY
  split_ifs with h
  · simp [h]
  · simp [h]

/-- Characterization of the battle.ts duel check. -/
theorem checkDuel_eq_true_iff (aw dw : Int) (r : Rat) :
    checkDuel aw dw r = true ↔ |aw - dw| ≤ 10 ∧ r < 0.05 := by
  unfold checkDuel DUEL_WAR_DIFF_THRESHOLD DUEL_TRIGGER_PROBABILITY
  split_ifs with h
  · simp [h]
  · simp [h]

/-- C3: `executeDuelCheck` checks instant kill before the duel; it returns an
instant kill exactly when the war difference exceeds 20 and the kill draw is
below 0.01 (the strictly-higher-war combatant winning deterministically),
returns a plain duel exactly when the difference is at most 10 and the duel
draw is below 0.05 (higher war wins, a tie going to the attacker iff the
tie-break draw is below 0.5), and otherwise nothing triggers. -/
theorem executeDuelCheck_spec (aw dw : Int) (aid did : String) (dr ikr wr : Rat) :
    ((executeDuelCheck aw dw aid did dr ikr wr).instantKill = true ↔
      20 < |aw - dw| ∧ ikr < 0.01) ∧
    (20 < |aw - dw| ∧ ikr < 0.01 →
      executeDuelCheck aw dw aid did dr ikr wr =
        { triggered := true, instantKill := true,
          winner := some (if dw < aw then aid else did) }) ∧
    ((executeDuelCheck aw dw aid did dr ikr wr).triggered = true ∧
        (executeDuelCheck aw dw aid did dr ikr wr).instantKill = false ↔
      |aw - dw| ≤ 10 ∧ dr < 0.05) ∧
    (|aw - dw| ≤ 10 ∧ dr < 0.05 →
      executeDuelCheck aw dw aid did dr ikr wr =
        { triggered := true, instantKill := false,
          winner := some (if dw < aw then aid
            else if aw < dw then did
            else if wr < 0.5 then aid else did) }) ∧
    (¬(20 < |aw - dw| ∧ ikr < 0.01) → ¬(|aw - dw| ≤ 10 ∧ dr < 0.05) →
      executeDuelCheck aw dw aid did dr ikr wr =
        { triggered := false, instantKill := false, winner := none }) := by
  have hk := checkInstantKill_eq_true_iff aw dw ikr
  have hd := checkDuel_eq_true_iff aw dw dr
  by_cases h1 : checkInstantKill aw dw ikr = true
  · have hcond := hk.mp h1
    have haw : aw ≠ dw := by
      intro he
      rw [he, sub_self, abs_zero] at hcond
      exact absurd hcond.1 (by norm_num)
    refine ⟨?_, ?_, ?_, ?_, ?_⟩
    · simpa [executeDuelCheck, h1] using hcond
    · intro _
      simp only [executeDuelCheck, h1, if_true, determineInstantKillVictim]
      rcases lt_trichotomy aw dw with hlt | heq | hgt
      · simp [not_lt_of_gt hlt, hlt]
      · exact absurd heq haw
      · by_cases hda : did = aid
        · simp [hgt, hda]
        · simp [hgt, hda]
    · have hten : ¬ (|aw - dw| ≤ 10 ∧ dr < 0.05) := by
        intro hc
        have := hcond.1
        omega
      simp [executeDuelCheck, h1, hten]
    · intro hc
      exfalso
      have := hcond.1
      have := hc.1
      omega
    · intro hnk _
      exact absurd hcond hnk
  · by_cases h2 : checkDuel aw dw dr = true
    · have hcond := hd.mp h2
      refine ⟨?_, ?_, ?_, ?_, ?_⟩
      · have hnc : ¬(20 < |aw - dw| ∧ ikr < 0.01) := fun hc => h1 (hk.mpr hc)
        simp [executeDuelCheck, h1, h2, hnc]
      · intro hc
        exact absurd (hk.mpr hc) h1
      · simpa [executeDuelCheck, h1, h2] using hcond
      · intro _
        simp [executeDuelCheck, h1, h2, determineDuelWinner]
      · intro _ hnd
        exact absurd hcond hnd
    · refine ⟨?_, ?_, ?_, ?_, ?_⟩
      · have hnc : ¬(20 < |aw - dw| ∧ ikr < 0.01) := fun hc => h1 (hk.mpr hc)
        simp [executeDuelCheck, h1, h2, hnc]
      · intro hc
        exact absurd (hk.mpr hc) h1
      · have hnd : ¬(|aw - dw| ≤ 10 ∧ dr < 0.05) := fun hc => h2 (hd.mpr hc)
        simp [executeDuelCheck, h1, h2, hnd]
      · intro hc
        exact absurd (hd.mpr hc) h2
      · intro _ _
        simp [executeDuelCheck, h1, h2]

/-- Instantiation of C3: war 80 vs 50 with a kill draw of 0.005 resolves as an
instant kill won by the attacker. -/
theorem executeDuelCheck_spec_witness :
    executeDuelCheck 80 50 "att" "def" 0.5 0.005 0.5 =
      { triggered := true, instantKill := true, winner := some "att" } := by
  have h := (executeDuelCheck_spec 80 50 "att" "def" 0.5 0.005 0.5).2.1
    ⟨by decide, by norm_num⟩
  rw [if_pos (by decide)] at h
  exact h

/-- C8 counterexample: with one pre-existing event and one new event, the
event log after the turn is not the pre-existing entry followed by the new
one — `endPlayerTurn` puts this turn's events in front. -/
theorem endPlayerTurnEventLog_counterexample :
    endPlayerTurnEventLog [evA] [evB] ≠ [evA, evB] := by decide

/-- C8 (amended): `endPlayerTurn` keeps every pre-existing event-log entry
unchanged but stores this turn's processed events before the pre-existing
entries (newest first), i.e. the new log is the new events prepended to the
old log. -/
theorem endPlayerTurnEventLog_spec (oldLog processedEvents : List GameEvent) :
    endPlayerTurnEventLog oldLog processedEvents = processedEvents ++ oldLog ∧
    ∀ e ∈ oldLog, e ∈ endPlayerTurnEventLog oldLog processedEvents := by
  have h : endPlayerTurnEventLog oldLog processedEvents = processedEvents ++ oldLog := by
    cases processedEvents with
    | nil => simp [endPlayerTurnEventLog]
    | cons x xs => simp [endPlayerTurnEventLog]
  exact ⟨h, fun e he => h ▸ List.mem_append_right _ he⟩

/-- Instantiation of C8 (amended) at a one-element log and one new event. -/
theorem endPlayerTurnEventLog_spec_witness :
    endPlayerTurnEventLog [evA] [evB] = [evB] ++ [evA] ∧
    evA ∈ endPlayerTurnEventLog [evA] [evB] :=
  ⟨(endPlayerTurnEventLog_spec [evA] [evB]).1,
    (endPlayerTurnEventLog_spec [evA] [evB]).2 evA (by decide)⟩

end Sanguo
